import Mathlib

/-!
# Verification of the ClipForge scoring service

Shallow embedding of `services/scoring_svc/main.py` and
`services/scoring_svc/segment_creators.py` (the highlight-scoring engine),
together with proofs about the embedded functions.

Modelling conventions:
* Python floats are modelled by `ℚ`; Python strings by `String` or
  `List Char`; optional payloads by `Option`.
* Python's stable `sorted` is modelled by a stable insertion sort `sortBy`
  (any two stable sorts agree, so this is observationally the same function).
* Presentation-only dictionary entries that no computation reads
  (`reason`, `source_text`, `source_peak_time`, `breakdown`, `reasons`,
  `metadata`, the `duration` entry of extracted transcription segments)
  are omitted from the records.
* The single floating-point square root in the source (`diff ** 0.5` in
  `analyze_spectral_changes`) is modelled by the rational square root
  `ratSqrt`, exact on perfect squares (every input the theorems below
  evaluate it on); the guard `flux > 2.0` is expressed by the equivalent
  exact test `diff > 4` on the squared distance, both sides being
  nonnegative.
* Typed payload records always carry their keys; the source drops malformed
  entries that lack `start`/`end`/`text`, which the typed model cannot
  represent in the first place.
-/

namespace ClipForge

/-- Python `s.startswith(pre)` (via character lists, which the kernel can
evaluate). -/
def strStartsWith (s pre : String) : Bool :=
  pre.toList.isPrefixOf s.toList

/-- Python substring test `kw in t`, over lists of characters. -/
def isSubstring (kw : List Char) : List Char → Bool
  | [] => kw.isEmpty
  | c :: rest => kw.isPrefixOf (c :: rest) || isSubstring kw rest

/-- Python `str.lower()` (character-wise, which is what the source's ASCII
keyword tables need). -/
def lowerStr (t : List Char) : List Char := t.map Char.toLower

/-- Python `str.strip()`. -/
def pyStrip (t : List Char) : List Char :=
  ((t.dropWhile Char.isWhitespace).reverse.dropWhile Char.isWhitespace).reverse

/-- `any(keyword in text for keyword in kws)`. -/
def containsAny (kws : List String) (t : List Char) : Bool :=
  kws.any (fun k => isSubstring k.toList t)

/-- Number of keywords of `kws` occurring as substrings of `t`
(`sum(1 for keyword in kws if keyword in text)`). -/
def countKeywords (kws : List String) (t : List Char) : ℕ :=
  (kws.filter (fun k => isSubstring k.toList t)).length

/-- `" ".join(parts)`. -/
def joinSpace (parts : List (List Char)) : List Char :=
  (parts.intersperse [' ']).flatten

/-- Rational model of the floating-point square root: `√(n/d) = √(n·d)/d`,
computed with `Nat.sqrt`.  Exact whenever the argument is the square of a
rational, which covers every input the theorems below evaluate it on. -/
def ratSqrt (q : ℚ) : ℚ := (Nat.sqrt (q.num.toNat * q.den) : ℚ) / (q.den : ℚ)

/-- Stable insertion: `lt a b` means `a` must come strictly before `b`.
`insertBy` places the new element after every earlier element it does not
strictly precede, which is exactly the stable-sort placement. -/
def insertBy (lt : α → α → Bool) (x : α) : List α → List α
  | [] => [x]
  | y :: ys => if lt x y then x :: y :: ys else y :: insertBy lt x ys

/-- Stable sort, modelling Python's `sorted`. -/
def sortBy (lt : α → α → Bool) (l : List α) : List α :=
  l.foldl (fun acc x => insertBy lt x acc) []

/-! ## Data model -/

/-- A timed transcription segment (`{start, end, text, confidence}`);
`end` is a Lean keyword, rendered `stop`. -/
structure TransSeg where
  start : ℚ
  stop : ℚ
  text : List Char
  confidence : ℚ := 1
deriving DecidableEq, Repr

/-- An audio peak as produced by `find_peaks_in_signal` /
`analyze_spectral_changes` and tagged by `analyze_audio_peaks`.
Energy/volume peaks carry `peak_time`; spectral changes carry `change_time`
instead (the source dicts have exactly one of the two keys). -/
structure AudioPeak where
  start : ℚ
  stop : ℚ
  peak_time : Option ℚ := none
  change_time : Option ℚ := none
  intensity : ℚ
  type : String := ""
deriving DecidableEq, Repr

/-- A vision event as produced by `analyze_vision_events`; scene changes and
motion peaks carry `intensity`, face events carry `confidence`. -/
structure VisionEvent where
  start : ℚ
  stop : ℚ
  type : String
  intensity : Option ℚ := none
  confidence : Option ℚ := none
deriving DecidableEq, Repr

/-- The transcription payload (Whisper-style): a flat `text`, a `segments`
list, and a `transcript` fallback.  An empty list/string models a missing or
falsy key, which the source treats identically. -/
structure Transcription where
  text : List Char := []
  segments : List TransSeg := []
  transcript : List Char := []
deriving DecidableEq, Repr

/-- One entry of the `scene_changes` payload list. -/
structure SceneChange where
  timestamp : ℚ
  intensity : Option ℚ := none
deriving DecidableEq, Repr

/-- One entry of the `face_tracking` payload list. -/
structure FaceEvent where
  timestamp : ℚ
  confidence : Option ℚ := none
deriving DecidableEq, Repr

/-- The `motion_intensity` key of the vision payload is collaborator-defined
and appears either as a scalar or as a sampled array. -/
inductive MotionField where
  | absent
  | scalar (v : ℚ)
  | arr (vs : List ℚ)
deriving DecidableEq, Repr

/-- The vision payload. -/
structure Vision where
  scene_changes : List SceneChange := []
  motion_intensity : MotionField := .absent
  face_tracking : List FaceEvent := []
  faces_detected : Bool := false
  faces : Bool := false
deriving DecidableEq, Repr

/-- The audio-features payload; `mfcc` is `spectral_features.mfcc`. -/
structure AudioFeatures where
  energy : List ℚ := []
  volume : List ℚ := []
  mfcc : List (List ℚ) := []
  loudness : ℚ := 0
deriving DecidableEq, Repr

/-- `ChunkData` of the scoring request. -/
structure ChunkData where
  transcription : Option Transcription := none
  vision : Option Vision := none
  audioFeatures : Option AudioFeatures := none
  duration : ℚ
  startTime : ℚ
deriving DecidableEq, Repr

/-- One chunk of the scoring request. -/
structure ChunkInput where
  chunkId : String
  chunkData : ChunkData
deriving DecidableEq, Repr

/-- A candidate highlight segment; `.get(key, 0)` accesses in the source are
modelled by the field defaults. -/
structure Segment where
  startTime : ℚ
  duration : ℚ
  type : String
  source_intensity : ℚ := 0
  source_excitement : ℚ := 0
  fusion_score : ℚ := 0
  source_types : List String := []
  source_events : ℕ := 0
  score : ℚ := 0
  confidence : ℚ := 0
deriving DecidableEq, Repr

/-- One entry of a highlight's `suggestedSegments` list. -/
structure SuggestedSegment where
  startTime : ℚ
  duration : ℚ
  confidence : ℚ
  absoluteStartTime : ℚ
deriving DecidableEq, Repr

/-- The externally visible highlight record (presentation-only fields
omitted). -/
structure Highlight where
  chunkId : String
  score : ℚ
  suggestedSegments : List SuggestedSegment
deriving DecidableEq, Repr

/-- `HIGHLIGHT_THRESHOLD` default. -/
def HIGHLIGHT_THRESHOLD : ℚ := 3/10
/-- `MIN_HIGHLIGHT_DURATION` default. -/
def MIN_HIGHLIGHT_DURATION : ℚ := 5
/-- `MAX_HIGHLIGHT_DURATION` default. -/
def MAX_HIGHLIGHT_DURATION : ℚ := 60

/-! ## Signal extractors (`main.py`) -/

/-- `extract_transcription_segments`: texts are stripped, `confidence`
defaults to 1. -/
def extract_transcription_segments (t : Option Transcription) : List TransSeg :=
  match t with
  | none => []
  | some tr => tr.segments.map (fun s =>
      { start := s.start, stop := s.stop, text := pyStrip s.text,
        confidence := s.confidence })

/-- `extract_transcription_text`: flat `text`, else joined segment texts,
else the `transcript` fallback. -/
def extract_transcription_text (t : Option Transcription) : List Char :=
  match t with
  | none => []
  | some tr =>
    let text := tr.text
    let text := if text = [] ∧ tr.segments ≠ [] then
        joinSpace (tr.segments.filterMap (fun s =>
          if s.text = [] then none else some (pyStrip s.text)))
      else text
    if text = [] ∧ tr.transcript ≠ [] then tr.transcript else text

/-- `find_peaks_in_signal`: strict local maxima above `threshold`, index
converted to time by `duration / len(signal)`, window `[t-5, t+10]` clamped
to `[0, duration]`. -/
def find_peaks_in_signal (signal : List ℚ) (duration : ℚ)
    (threshold : ℚ := 7/10) : List AudioPeak :=
  if signal.length < 3 then [] else
  let time_step := duration / (signal.length : ℚ)
  (List.range signal.length).filterMap (fun i =>
    if 1 ≤ i ∧ i + 1 < signal.length then
      let current := signal.getD i 0
      let prev_val := signal.getD (i - 1) 0
      let next_val := signal.getD (i + 1) 0
      if prev_val < current ∧ next_val < current ∧ threshold < current then
        let peak_time := (i : ℚ) * time_step
        some { start := max 0 (peak_time - 5), stop := min duration (peak_time + 10),
               peak_time := some peak_time, intensity := current }
      else none
    else none)

/-- Squared Euclidean distance of two MFCC frames (`zip` truncates to the
shorter frame, as in the source). -/
def sqDist (a b : List ℚ) : ℚ :=
  ((a.zip b).map (fun p => (p.1 - p.2) ^ 2)).sum

/-- `analyze_spectral_changes`: a change is emitted at frame `i ≥ 1` when the
Euclidean distance to frame `i-1` exceeds 2 (tested exactly as `diff > 4` on
the squared distance); window `[t-3, t+7]` clamped to `[0, duration]`,
intensity `min(flux/5, 1)`. -/
def analyze_spectral_changes (mfcc : List (List ℚ)) (duration : ℚ) :
    List AudioPeak :=
  if mfcc.length < 2 then [] else
  let time_step := duration / (mfcc.length : ℚ)
  (List.range mfcc.length).filterMap (fun i =>
    if 1 ≤ i then
      let diff := sqDist (mfcc.getD i []) (mfcc.getD (i - 1) [])
      if 4 < diff then
        let change_time := (i : ℚ) * time_step
        some { start := max 0 (change_time - 3), stop := min duration (change_time + 7),
               change_time := some change_time, intensity := min (ratSqrt diff / 5) 1 }
      else none
    else none)

/-- `analyze_audio_peaks`: energy and volume peaks (threshold 0.7) and
spectral changes, tagged with their type. -/
def analyze_audio_peaks (af : Option AudioFeatures) (duration : ℚ) :
    List AudioPeak :=
  match af with
  | none => []
  | some a =>
    ((find_peaks_in_signal a.energy duration).map (fun p => { p with type := "energy" }))
    ++ ((find_peaks_in_signal a.volume duration).map (fun p => { p with type := "volume" }))
    ++ ((analyze_spectral_changes a.mfcc duration).map (fun p => { p with type := "spectral" }))

/-- `analyze_vision_events`: scene changes (±2s/+3s), motion peaks
(threshold 0.6), face events (−1s/+4s). -/
def analyze_vision_events (vision : Option Vision) (duration : ℚ) :
    List VisionEvent :=
  match vision with
  | none => []
  | some v =>
    (v.scene_changes.map (fun ch =>
      { start := max 0 (ch.timestamp - 2), stop := min duration (ch.timestamp + 3),
        type := "scene_change", intensity := some (ch.intensity.getD (1/2)) }))
    ++ (match v.motion_intensity with
        | .arr m => (find_peaks_in_signal m duration (3/5)).map (fun p =>
            { start := p.start, stop := p.stop, type := "motion",
              intensity := some p.intensity })
        | _ => [])
    ++ (v.face_tracking.map (fun f =>
      { start := max 0 (f.timestamp - 1), stop := min duration (f.timestamp + 4),
        type := "face_detected", confidence := some (f.confidence.getD (1/2)) }))

/-! ## Candidate generators (`segment_creators.py`) -/

/-- The `intensity_keywords` table of `create_speech_based_segments`. -/
def intensity_keywords : List String :=
  ["wow", "amazing", "incredible", "perfect", "insane", "unbelievable",
   "clutch", "epic", "awesome", "brilliant", "outstanding"]

/-- The `excitement_keywords` table of `create_speech_based_segments`. -/
def excitement_keywords : List String :=
  ["oh my god", "holy", "damn", "shit", "fuck", "yes!", "no way",
   "are you kidding", "you\x27ve got to be"]

/-- `create_speech_based_segments`. -/
def create_speech_based_segments (transcription_segments : List TransSeg)
    (duration : ℚ) : List Segment :=
  transcription_segments.filterMap (fun seg =>
    let text := lowerStr seg.text
    let intensity_score : ℚ := (countKeywords intensity_keywords text : ℚ)
    let excitement_score : ℚ := 2 * (countKeywords excitement_keywords text : ℚ)
    if 0 < intensity_score ∨ 0 < excitement_score ∨ 100 < text.length then
      let segment_start := max 0 (seg.start - 5)
      let segment_end := min duration (seg.stop + 10)
      some { startTime := segment_start, duration := segment_end - segment_start,
             type := "speech_based", source_intensity := intensity_score,
             source_excitement := excitement_score }
    else none)

/-- `create_audio_peak_segments`. -/
def create_audio_peak_segments (audio_peaks : List AudioPeak) (duration : ℚ) :
    List Segment :=
  audio_peaks.map (fun peak =>
    let peak_time := peak.peak_time.getD ((peak.start + peak.stop) / 2)
    let intensity := peak.intensity
    let base_duration := 15 + intensity * 15
    let segment_start := max 0 (peak_time - base_duration * (3/10))
    let segment_duration := min base_duration (duration - segment_start)
    let ptype := if peak.type = "" then "peak" else peak.type
    { startTime := segment_start, duration := segment_duration,
      type := "audio_" ++ ptype, source_intensity := intensity })

/-- `create_vision_event_segments`. -/
def create_vision_event_segments (vision_events : List VisionEvent)
    (duration : ℚ) : List Segment :=
  vision_events.map (fun event =>
    let intensity := event.intensity.getD (event.confidence.getD (1/2))
    let p :=
      if event.type = "scene_change" then
        let s := max 0 (event.start - 3); (s, min 20 (duration - s))
      else if event.type = "motion" then
        (event.start, min 25 (event.stop - event.start))
      else if event.type = "face_detected" then
        let s := max 0 (event.start - 2); (s, min 15 (duration - s))
      else
        (event.start, min 20 (event.stop - event.start))
    { startTime := p.1, duration := p.2,
      type := "vision_" ++ event.type, source_intensity := intensity })

/-- Payload of a clustering event (the `data` entry of the event dicts built
in `create_fusion_segments`). -/
inductive EvData where
  | speech (s : TransSeg)
  | audio (p : AudioPeak)
  | vision (v : VisionEvent)
deriving DecidableEq, Repr

/-- An event as clustered by `find_event_clusters`. -/
structure Ev where
  start : ℚ
  stop : ℚ
  data : EvData
deriving DecidableEq, Repr

/-- The `type` entry of a clustering event. -/
def Ev.type (e : Ev) : String :=
  match e.data with
  | .speech _ => "speech"
  | .audio _ => "audio"
  | .vision _ => "vision"

/-- The loop of `find_event_clusters`: `cur` is the current cluster and
`last` its most recently appended event (`current_cluster[-1]`). -/
def findClustersGo (max_gap : ℚ) (cur : List Ev) (last : Ev) :
    List Ev → List (List Ev)
  | [] => [cur]
  | e :: rest =>
    if e.start - last.stop ≤ max_gap then findClustersGo max_gap (cur ++ [e]) e rest
    else cur :: findClustersGo max_gap [e] e rest

/-- `find_event_clusters`. -/
def find_event_clusters (events : List Ev) (max_gap : ℚ := 10) :
    List (List Ev) :=
  match events with
  | [] => []
  | e :: rest => findClustersGo max_gap [e] e rest

/-- `min(event["start"] for event in cluster)` (0 on `[]`, unreached). -/
def minStart (cluster : List Ev) : ℚ :=
  match cluster with
  | [] => 0
  | e :: es => es.foldl (fun m x => min m x.start) e.start

/-- `max(event["end"] for event in cluster)` (0 on `[]`, unreached). -/
def maxEnd (cluster : List Ev) : ℚ :=
  match cluster with
  | [] => 0
  | e :: es => es.foldl (fun m x => max m x.stop) e.stop

/-- The speech-quality keyword table of `calculate_fusion_score`. -/
def fusion_quality_keywords : List String :=
  ["amazing", "incredible", "wow", "perfect", "insane"]

/-- `calculate_fusion_score`. -/
def calculate_fusion_score (event_cluster : List Ev) : ℚ :=
  if event_cluster = [] then 0 else
  let score := ((event_cluster.map Ev.type).dedup.length : ℚ) * (3/20)
  let score := if 1 < event_cluster.length then
      let cluster_duration := maxEnd event_cluster - minStart event_cluster
      if 0 < cluster_duration then
        score + min ((event_cluster.length : ℚ) / cluster_duration * (1/10)) (3/10)
      else score
    else score
  let score := score + (event_cluster.map (fun e =>
      match e.data with
      | .speech s => if containsAny fusion_quality_keywords (lowerStr s.text) then 1/5 else 0
      | .audio p => p.intensity * (3/20)
      | .vision v => (v.intensity.getD (v.confidence.getD (1/2))) * (1/10))).sum
  min score 1

/-- The event list assembled by `create_fusion_segments` before sorting. -/
def eventsOf (ts : List TransSeg) (aps : List AudioPeak)
    (ves : List VisionEvent) : List Ev :=
  (ts.map (fun s => { start := s.start, stop := s.stop, data := .speech s }))
  ++ (aps.map (fun p => { start := p.start, stop := p.stop, data := .audio p }))
  ++ (ves.map (fun v => { start := v.start, stop := v.stop, data := .vision v }))

/-- The per-cluster body of `create_fusion_segments`' emission loop:
`some` exactly when the cluster has ≥ 2 events, the expanded window is at
least 10s long, and the fusion score exceeds 0.3. -/
def fusion_segment_of_cluster (cluster : List Ev) (duration : ℚ) :
    Option Segment :=
  if 2 ≤ cluster.length then
    let segment_start := max 0 (minStart cluster - 5)
    let segment_end := min duration (maxEnd cluster + 8)
    let segment_duration := segment_end - segment_start
    let fusion_score := calculate_fusion_score cluster
    if 10 ≤ segment_duration ∧ 3/10 < fusion_score then
      some { startTime := segment_start, duration := segment_duration,
             type := "multi_modal_fusion", source_events := cluster.length,
             source_types := (cluster.map Ev.type).dedup,
             fusion_score := fusion_score }
    else none
  else none

/-- `create_fusion_segments`. -/
def create_fusion_segments (ts : List TransSeg) (aps : List AudioPeak)
    (ves : List VisionEvent) (duration : ℚ) : List Segment :=
  let all_events := sortBy (fun a b => decide (a.start < b.start)) (eventsOf ts aps ves)
  (find_event_clusters all_events 10).filterMap
    (fun c => fusion_segment_of_cluster c duration)

/-! ## Scoring model (`segment_creators.py`) -/

/-- The `overlaps` interval test. -/
def overlaps (start1 end1 start2 end2 : ℚ) : Bool :=
  decide (start1 < end2 ∧ start2 < end1)

/-- The context-bonus keyword table of `calculate_context_bonus`. -/
def context_keywords : List String :=
  ["clip", "highlight", "amazing", "incredible", "perfect"]

/-- `calculate_context_bonus`, capped at 0.3. -/
def calculate_context_bonus (segment : Segment)
    (transcription_segments : List TransSeg) (audio_peaks : List AudioPeak)
    (vision_events : List VisionEvent) : ℚ :=
  let segment_start := segment.startTime
  let segment_end := segment_start + segment.duration
  let bonus := ((transcription_segments.filter (fun t =>
      overlaps segment_start segment_end t.start t.stop
      && containsAny context_keywords (lowerStr t.text))).length : ℚ) * (1/10)
  let bonus := bonus + ((audio_peaks.filter (fun p =>
      overlaps segment_start segment_end p.start p.stop)).map
      (fun p => p.intensity * (1/20))).sum
  let bonus := bonus + ((vision_events.filter (fun v =>
      overlaps segment_start segment_end v.start v.stop)).map
      (fun v => (v.intensity.getD (v.confidence.getD (1/2))) * (3/100))).sum
  min bonus (3/10)

/-- `score_highlight_segment` (its unused `chunk` parameter is dropped). -/
def score_highlight_segment (segment : Segment)
    (transcription_segments : List TransSeg) (audio_peaks : List AudioPeak)
    (vision_events : List VisionEvent) : ℚ :=
  let score : ℚ := 0
  let score := if strStartsWith segment.type "speech" then score + 3/10
    else if strStartsWith segment.type "audio" then score + 1/4
    else if strStartsWith segment.type "vision" then score + 1/5
    else if segment.type = "multi_modal_fusion" then score + 2/5
    else score
  let score := score + segment.source_intensity * (1/10)
  let score := score + segment.source_excitement * (3/20)
  let score := if segment.type = "multi_modal_fusion" then
      score + segment.fusion_score * (3/10) + (segment.source_types.length : ℚ) * (1/20)
    else score
  let score := if segment.duration < 5 then score * (3/10)
    else if segment.duration < 10 then score * (7/10)
    else if 45 < segment.duration then score * (4/5)
    else score
  let score := score +
    calculate_context_bonus segment transcription_segments audio_peaks vision_events
  min score 1

/-- `calculate_segment_confidence` (its unused `chunk` parameter is
dropped). -/
def calculate_segment_confidence (segment : Segment) : ℚ :=
  let confidence : ℚ := 1/2
  let confidence := if segment.type = "multi_modal_fusion" then confidence + 3/10 else confidence
  let confidence := if 0 < segment.source_excitement then confidence + 1/5 else confidence
  let confidence := if 7/10 < segment.source_intensity then confidence + 1/10 else confidence
  let confidence := if 15 ≤ segment.duration ∧ segment.duration ≤ 30 then confidence + 1/10 else confidence
  min confidence 1

/-! ## Segment selector (`remove_overlapping_segments`) -/

/-- The overlapping duration of two segments
(`max(0, min(end, existing_end) - max(start, existing_start))`). -/
def overlap_duration (s e : Segment) : ℚ :=
  max 0 (min (s.startTime + s.duration) (e.startTime + e.duration)
          - max s.startTime e.startTime)

/-- The significant-overlap test of `remove_overlapping_segments`: the
overlap exceeds 50% of either segment's duration. -/
def significant_overlap (s e : Segment) : Bool :=
  decide (1/2 < overlap_duration s e / s.duration)
  || decide (1/2 < overlap_duration s e / e.duration)

/-- One step of the greedy selection loop. -/
def select_step (final_segments : List Segment) (segment : Segment) :
    List Segment :=
  if final_segments.any (fun existing => significant_overlap segment existing)
  then final_segments
  else final_segments ++ [segment]

/-- The greedy selection loop over the score-sorted candidates. -/
def select_non_overlapping (sorted_segments : List Segment) : List Segment :=
  sorted_segments.foldl select_step []

/-- `remove_overlapping_segments`: sort by score descending, greedily keep
non-overlapping segments, re-sort by start time. -/
def remove_overlapping_segments (segments : List Segment) : List Segment :=
  if segments.isEmpty then segments
  else
    sortBy (fun a b => decide (a.startTime < b.startTime))
      (select_non_overlapping (sortBy (fun a b => decide (b.score < a.score)) segments))

/-! ## Per-chunk pipeline and stream aggregation (`main.py`) -/

/-- `find_highlight_segments_in_chunk`. -/
def find_highlight_segments_in_chunk (chunk : ChunkInput) : List Segment :=
  let duration := chunk.chunkData.duration
  let transcription_segments := extract_transcription_segments chunk.chunkData.transcription
  let audio_peaks := analyze_audio_peaks chunk.chunkData.audioFeatures duration
  let vision_events := analyze_vision_events chunk.chunkData.vision duration
  let candidates :=
    create_speech_based_segments transcription_segments duration
    ++ create_audio_peak_segments audio_peaks duration
    ++ create_vision_event_segments vision_events duration
    ++ create_fusion_segments transcription_segments audio_peaks vision_events duration
  let scored := candidates.map (fun c =>
    { c with score := score_highlight_segment c transcription_segments audio_peaks vision_events,
             confidence := calculate_segment_confidence c })
  let valid_candidates := scored.filter (fun c =>
    decide (MIN_HIGHLIGHT_DURATION ≤ c.duration)
    && decide (c.duration ≤ MAX_HIGHLIGHT_DURATION)
    && decide (1/10 < c.score))
  remove_overlapping_segments valid_candidates

/-- The single suggested-segment entry built in `analyze_and_score_chunks`:
its `absoluteStartTime` is the chunk's `startTime` plus the segment's
chunk-relative `startTime`. -/
def suggestedOf (chunk : ChunkInput) (segment : Segment) : SuggestedSegment :=
  { startTime := segment.startTime, duration := segment.duration,
    confidence := segment.confidence,
    absoluteStartTime := chunk.chunkData.startTime + segment.startTime }

/-- The highlight record built in `analyze_and_score_chunks` around one
qualifying segment. -/
def mkHighlight (chunk : ChunkInput) (segment : Segment) : Highlight :=
  { chunkId := chunk.chunkId, score := segment.score,
    suggestedSegments := [suggestedOf chunk segment] }

/-- `analyze_and_score_chunks`: per-chunk highlights above the threshold,
sorted by score descending. -/
def analyze_and_score_chunks (chunks : List ChunkInput) : List Highlight :=
  let highlights := chunks.flatMap (fun chunk =>
    (find_highlight_segments_in_chunk chunk).filterMap (fun segment =>
      if HIGHLIGHT_THRESHOLD ≤ segment.score then some (mkHighlight chunk segment)
      else none))
  sortBy (fun a b => decide (b.score < a.score)) highlights

/-! ## Chunk-level fallback scorer (`calculate_chunk_score`) -/

/-- The `clip_request_terms` table of `score_transcription`. -/
def clip_request_terms : List String :=
  ["clip it", "clip that", "make a clip", "that\x27s a clip", "clipworthy",
   "clip worthy"]

/-- The `action_words` table of `score_transcription`. -/
def action_words : List String :=
  ["amazing", "incredible", "wow", "unbelievable", "insane", "perfect",
   "epic", "awesome", "fantastic", "great", "excellent", "outstanding",
   "brilliant"]

/-- The `emotion_words` table of `score_transcription`. -/
def emotion_words : List String :=
  ["excited", "shocked", "surprised", "happy", "angry", "love", "hate",
   "crazy", "wild", "intense", "fun", "funny", "hilarious"]

/-- The `gaming_words` table of `score_transcription`. -/
def gaming_words : List String :=
  ["clutch", "play", "win", "lose", "kill", "death", "score", "points",
   "level", "good fight", "gg", "nice", "skilled", "combo", "finish",
   "victory", "defeat"]

/-- `score_transcription`, capped at 0.8. -/
def score_transcription (text : List Char) : ℚ :=
  if text = [] then 0 else
  let text_lower := lowerStr text
  let score : ℚ := 1/5
  let score := score + (countKeywords clip_request_terms text_lower : ℚ) * (3/10)
  let score := score + (countKeywords action_words text_lower : ℚ) * (1/10)
  let score := score + (countKeywords emotion_words text_lower : ℚ) * (1/20)
  let score := score + (countKeywords gaming_words text_lower : ℚ) * (3/100)
  let score := score + (min ((text.length : ℚ) / 100) 1) * (3/10)
  min score (4/5)

/-- `score_vision_data`, capped at 0.6.  When the payload's
`motion_intensity` is a list, the source's `motion > 0` comparison raises a
`TypeError`, modelled as `none`. -/
def score_vision_data (vision_data : Vision) : Option ℚ :=
  let score : ℚ := 1/10
  let score := if vision_data.faces_detected || vision_data.faces then score + 1/5 else score
  let score := score + min ((vision_data.scene_changes.length : ℚ) * (1/10)) (3/10)
  match vision_data.motion_intensity with
  | .arr _ => none
  | .scalar v => some (min (if 0 < v then score + min (v * (1/10)) (1/5) else score) (3/5))
  | .absent => some (min score (3/5))

/-- `score_audio_features`, capped at 0.4. -/
def score_audio_features (audio_features : AudioFeatures) : ℚ :=
  let score : ℚ := 1/10
  let score := if audio_features.energy ≠ [] then
      score + min ((audio_features.energy.sum / (audio_features.energy.length : ℚ)) * (1/5)) (3/10)
    else score
  let score := if 0 < audio_features.loudness then
      score + min (audio_features.loudness * (1/20)) (1/5)
    else score
  min score (2/5)

/-- `calculate_chunk_score`: per-payload contributions, the 0.2 baseline for
chunks with no payload at all, duration shaping, cap at 1. -/
def calculate_chunk_score (chunk : ChunkInput) : Option ℚ :=
  let score : ℚ := 0
  let score := match chunk.chunkData.transcription with
    | none => score
    | some _ => score + score_transcription (extract_transcription_text chunk.chunkData.transcription)
  let visionPart : Option ℚ := match chunk.chunkData.vision with
    | none => some 0
    | some v => score_vision_data v
  match visionPart with
  | none => none
  | some vs =>
    let score := score + vs
    let score := match chunk.chunkData.audioFeatures with
      | none => score
      | some a => score + score_audio_features a
    let score := if chunk.chunkData.transcription = none ∧ chunk.chunkData.vision = none
        ∧ chunk.chunkData.audioFeatures = none then 1/5 else score
    let duration := chunk.chunkData.duration
    let score := if duration < 3 then score * (1/2)
      else if 30 < duration then score * (4/5)
      else score
    some (min score 1)

/-! ## General lemmas about the stable sort -/

theorem insertBy_perm (lt : α → α → Bool) (x : α) (l : List α) :
    (insertBy lt x l).Perm (x :: l) := by
  induction l with
  | nil => exact List.Perm.refl _
  | cons y ys ih =>
    simp only [insertBy]
    split
    · exact List.Perm.refl _
    · exact (ih.cons y).trans (List.Perm.swap x y ys)

theorem sortBy_foldl_perm (lt : α → α → Bool) :
    ∀ (l acc : List α), (l.foldl (fun acc x => insertBy lt x acc) acc).Perm (acc ++ l) := by
  intro l
  induction l with
  | nil => intro acc; simp
  | cons x xs ih =>
    intro acc
    rw [List.foldl_cons]
    refine (ih (insertBy lt x acc)).trans ?_
    refine ((insertBy_perm lt x acc).append_right xs).trans ?_
    exact List.perm_middle.symm

theorem sortBy_perm (lt : α → α → Bool) (l : List α) : (sortBy lt l).Perm l := by
  simpa using sortBy_foldl_perm lt l []

theorem mem_sortBy (lt : α → α → Bool) (l : List α) (x : α) :
    x ∈ sortBy lt l ↔ x ∈ l :=
  (sortBy_perm lt l).mem_iff

/-! ## Lemmas about the greedy overlap-resolution loop -/

theorem overlap_duration_comm (s e : Segment) :
    overlap_duration s e = overlap_duration e s := by
  unfold overlap_duration
  rw [min_comm (s.startTime + s.duration), max_comm s.startTime]

theorem significant_overlap_comm (s e : Segment) :
    significant_overlap s e = significant_overlap e s := by
  unfold significant_overlap
  rw [overlap_duration_comm, Bool.or_comm]

/-- No significant overlap between two segments (the relation the selector
guarantees pairwise). -/
def NoSig (a b : Segment) : Prop := significant_overlap a b = false

theorem noSig_symm : ∀ {a b : Segment}, NoSig a b → NoSig b a := by
  intro a b h
  unfold NoSig at h ⊢
  rw [significant_overlap_comm]
  exact h

theorem select_step_mem {acc : List Segment} {s x : Segment}
    (h : x ∈ select_step acc s) : x ∈ acc ∨ x = s := by
  unfold select_step at h
  split at h
  · exact Or.inl h
  · rcases List.mem_append.mp h with h1 | h1
    · exact Or.inl h1
    · exact Or.inr (List.mem_singleton.mp h1)

theorem select_fold_mem (l : List Segment) :
    ∀ acc x, x ∈ l.foldl select_step acc → x ∈ acc ∨ x ∈ l := by
  induction l with
  | nil => intro acc x h; exact Or.inl h
  | cons s rest ih =>
    intro acc x h
    rw [List.foldl_cons] at h
    rcases ih (select_step acc s) x h with h1 | h1
    · rcases select_step_mem h1 with h2 | h2
      · exact Or.inl h2
      · exact Or.inr (h2 ▸ List.mem_cons_self s rest)
    · exact Or.inr (List.mem_cons_of_mem s h1)

theorem select_fold_pairwise (l : List Segment) :
    ∀ acc, acc.Pairwise NoSig → (l.foldl select_step acc).Pairwise NoSig := by
  induction l with
  | nil => intro acc h; exact h
  | cons s rest ih =>
    intro acc h
    rw [List.foldl_cons]
    apply ih
    unfold select_step
    split
    · exact h
    · next hany =>
      rw [List.pairwise_append]
      refine ⟨h, List.pairwise_singleton _ _, ?_⟩
      intro a ha b hb
      rw [List.mem_singleton] at hb
      subst hb
      unfold NoSig
      rw [significant_overlap_comm]
      by_contra hx
      exact hany (List.any_eq_true.mpr
        ⟨a, ha, by simpa using Bool.not_eq_false _ |>.mp hx⟩)

theorem pairwise_select (l : List Segment) :
    (select_non_overlapping l).Pairwise NoSig :=
  select_fold_pairwise l [] List.Pairwise.nil

theorem mem_select {l : List Segment} {x : Segment}
    (h : x ∈ select_non_overlapping l) : x ∈ l := by
  rcases select_fold_mem l [] x h with h1 | h1
  · exact absurd h1 (List.not_mem_nil x)
  · exact h1

theorem mem_remove_overlapping {l : List Segment} {x : Segment}
    (h : x ∈ remove_overlapping_segments l) : x ∈ l := by
  unfold remove_overlapping_segments at h
  split at h
  · exact h
  · exact (mem_sortBy _ l x).mp (mem_select ((mem_sortBy _ _ x).mp h))

theorem pairwise_remove_overlapping (l : List Segment) :
    (remove_overlapping_segments l).Pairwise NoSig := by
  unfold remove_overlapping_segments
  split
  · next hemp =>
    rw [List.isEmpty_iff.mp hemp]
    exact List.Pairwise.nil
  · exact ((sortBy_perm _ _).pairwise_iff (fun h => noSig_symm h)).mpr
      (pairwise_select _)

/-- C1: within one list's overlap-resolution output, no two segments overlap
by more than 50% of either segment's duration; and a segment temporally
contained in another always counts as significantly overlapping (so a
shorter segment fully inside an accepted longer one is rejected). -/
theorem C1_overlap_resolution :
    (∀ segments : List Segment, (∀ s ∈ segments, 0 < s.duration) →
      (remove_overlapping_segments segments).Pairwise (fun a b =>
        overlap_duration a b ≤ a.duration / 2 ∧ overlap_duration a b ≤ b.duration / 2))
    ∧ (∀ s e : Segment, 0 < s.duration → e.startTime ≤ s.startTime →
        s.startTime + s.duration ≤ e.startTime + e.duration →
        significant_overlap s e = true) := by
  constructor
  · intro segments h
    refine (pairwise_remove_overlapping segments).imp_of_mem ?_
    intro a b ha hb hns
    have ha' := h a (mem_remove_overlapping ha)
    have hb' := h b (mem_remove_overlapping hb)
    unfold NoSig significant_overlap at hns
    rw [Bool.or_eq_false_iff, decide_eq_false_iff_not, decide_eq_false_iff_not] at hns
    obtain ⟨h1, h2⟩ := hns
    rw [not_lt, div_le_iff₀ ha'] at h1
    rw [not_lt, div_le_iff₀ hb'] at h2
    constructor <;> linarith
  · intro s e hs h1 h2
    unfold significant_overlap overlap_duration
    rw [min_eq_left h2, max_eq_left h1]
    have hd : s.startTime + s.duration - s.startTime = s.duration := by ring
    rw [hd, max_eq_right hs.le, div_self (ne_of_gt hs)]
    simp only [Bool.or_eq_true, decide_eq_true_eq]
    left
    norm_num

/-- A pair of segments for the C1 witness: the second lies fully inside the
first and scores higher. -/
def c1InnerSeg : Segment := { startTime := 12, duration := 8, type := "audio_energy", score := 4/5 }

/-- The enclosing segment for the C1 witness. -/
def c1OuterSeg : Segment := { startTime := 10, duration := 15, type := "speech_based", score := 3/5 }

/-- Witness for C1 at a concrete candidate list (Scenario C of the spec):
the pairwise bound holds on the resolved output, and full containment is
flagged as significant overlap. -/
theorem C1_overlap_resolution_witness :
    ((remove_overlapping_segments [c1OuterSeg, c1InnerSeg]).Pairwise (fun a b =>
        overlap_duration a b ≤ a.duration / 2 ∧ overlap_duration a b ≤ b.duration / 2))
    ∧ significant_overlap c1InnerSeg c1OuterSeg = true :=
  ⟨C1_overlap_resolution.1 [c1OuterSeg, c1InnerSeg] (by decide),
   C1_overlap_resolution.2 c1InnerSeg c1OuterSeg (by norm_num [c1InnerSeg])
     (by norm_num [c1InnerSeg, c1OuterSeg]) (by norm_num [c1InnerSeg, c1OuterSeg])⟩

/-! ## Lemmas about the per-chunk pipeline -/

theorem mem_analyze {chunks : List ChunkInput} {hl : Highlight}
    (h : hl ∈ analyze_and_score_chunks chunks) :
    ∃ chunk ∈ chunks, ∃ seg ∈ find_highlight_segments_in_chunk chunk,
      HIGHLIGHT_THRESHOLD ≤ seg.score ∧ hl = mkHighlight chunk seg := by
  unfold analyze_and_score_chunks at h
  have h1 := (mem_sortBy _ _ _).mp h
  rw [List.mem_flatMap] at h1
  obtain ⟨chunk, hc, h2⟩ := h1
  rw [List.mem_filterMap] at h2
  obtain ⟨seg, hs, h3⟩ := h2
  split at h3
  · next hthr => exact ⟨chunk, hc, seg, hs, hthr, (Option.some_inj.mp h3).symm⟩
  · exact absurd h3 (by simp)

theorem find_highlight_mem_bounds {chunk : ChunkInput} {seg : Segment}
    (h : seg ∈ find_highlight_segments_in_chunk chunk) :
    MIN_HIGHLIGHT_DURATION ≤ seg.duration ∧ seg.duration ≤ MAX_HIGHLIGHT_DURATION
    ∧ 1/10 < seg.score := by
  simp only [find_highlight_segments_in_chunk] at h
  have h1 := mem_remove_overlapping h
  have h2 := (List.mem_filter.mp h1).2
  simp only [Bool.and_eq_true, decide_eq_true_eq] at h2
  exact ⟨h2.1.1, h2.1.2, h2.2⟩

/-- C2: every highlight emitted by `analyze_and_score_chunks` scores at
least `HIGHLIGHT_THRESHOLD`, and every suggested segment's duration lies in
`[MIN_HIGHLIGHT_DURATION, MAX_HIGHLIGHT_DURATION]` (the output is a plain
list, possibly empty, and the function is total). -/
theorem C2_output_bounds :
    ∀ chunks : List ChunkInput, ∀ hl ∈ analyze_and_score_chunks chunks,
      HIGHLIGHT_THRESHOLD ≤ hl.score ∧
      ∀ s ∈ hl.suggestedSegments,
        MIN_HIGHLIGHT_DURATION ≤ s.duration ∧ s.duration ≤ MAX_HIGHLIGHT_DURATION := by
  intro chunks hl h
  obtain ⟨chunk, _, seg, hseg, hthr, rfl⟩ := mem_analyze h
  refine ⟨hthr, ?_⟩
  intro s hs
  simp only [mkHighlight, List.mem_singleton] at hs
  subst hs
  obtain ⟨hmin, hmax, _⟩ := find_highlight_mem_bounds hseg
  exact ⟨hmin, hmax⟩

/-- A chunk with one short "wow" speech segment, used as a concrete witness
input for several claims. -/
def wowChunk : ChunkInput :=
  { chunkId := "w",
    chunkData := { transcription := some { segments := [{ start := 5, stop := 8, text := "wow".toList }] },
                   duration := 30, startTime := 0 } }

/-- The single highlight the pipeline produces for `wowChunk`. -/
def wowHighlight : Highlight :=
  { chunkId := "w", score := 2/5,
    suggestedSegments := [{ startTime := 0, duration := 18, confidence := 7/10,
                            absoluteStartTime := 0 }] }

/-- Witness for C2 at the concrete `wowChunk` input. -/
theorem C2_output_bounds_witness :
    HIGHLIGHT_THRESHOLD ≤ wowHighlight.score ∧
    ∀ s ∈ wowHighlight.suggestedSegments,
      MIN_HIGHLIGHT_DURATION ≤ s.duration ∧ s.duration ≤ MAX_HIGHLIGHT_DURATION :=
  C2_output_bounds [wowChunk] wowHighlight (by with_unfolding_all decide)

/-- C10: every emitted highlight carries exactly one suggested segment,
built from one qualifying scored segment of one chunk, and its
`absoluteStartTime` is the chunk's `startTime` plus the segment's
chunk-relative `startTime`. -/
theorem C10_one_segment_per_highlight :
    ∀ chunks : List ChunkInput, ∀ hl ∈ analyze_and_score_chunks chunks,
      hl.suggestedSegments.length = 1 ∧
      ∃ chunk ∈ chunks, ∃ seg ∈ find_highlight_segments_in_chunk chunk,
        hl.chunkId = chunk.chunkId ∧
        hl.suggestedSegments = [suggestedOf chunk seg] := by
  intro chunks hl h
  obtain ⟨chunk, hc, seg, hseg, _, rfl⟩ := mem_analyze h
  exact ⟨rfl, chunk, hc, seg, hseg, rfl, rfl⟩

/-- Witness for C10 at the concrete `wowChunk` input. -/
theorem C10_one_segment_per_highlight_witness :
    wowHighlight.suggestedSegments.length = 1 ∧
    ∃ chunk ∈ [wowChunk], ∃ seg ∈ find_highlight_segments_in_chunk chunk,
      wowHighlight.chunkId = chunk.chunkId ∧
      wowHighlight.suggestedSegments = [suggestedOf chunk seg] :=
  C10_one_segment_per_highlight [wowChunk] wowHighlight (by with_unfolding_all decide)

/-! ## The scoring formula (C3, C5) -/

theorem calculate_context_bonus_nonneg (segment : Segment) (ts : List TransSeg)
    (aps : List AudioPeak) (ves : List VisionEvent)
    (ha : ∀ p ∈ aps, 0 ≤ p.intensity)
    (hv : ∀ v ∈ ves, 0 ≤ v.intensity.getD (v.confidence.getD (1/2))) :
    0 ≤ calculate_context_bonus segment ts aps ves := by
  unfold calculate_context_bonus
  refine le_min ?_ (by norm_num)
  refine add_nonneg (add_nonneg ?_ ?_) ?_
  · exact mul_nonneg (Nat.cast_nonneg _) (by norm_num)
  · refine List.sum_nonneg ?_
    intro x hx
    rw [List.mem_map] at hx
    obtain ⟨p, hp, rfl⟩ := hx
    exact mul_nonneg (ha p (List.mem_filter.mp hp).1) (by norm_num)
  · refine List.sum_nonneg ?_
    intro x hx
    rw [List.mem_map] at hx
    obtain ⟨v, hvm, rfl⟩ := hx
    exact mul_nonneg (hv v (List.mem_filter.mp hvm).1) (by norm_num)

theorem calculate_context_bonus_le (segment : Segment) (ts : List TransSeg)
    (aps : List AudioPeak) (ves : List VisionEvent) :
    calculate_context_bonus segment ts aps ves ≤ 3/10 :=
  min_le_right _ _

theorem min_clamp_eq {x y : ℚ} (hx : 0 ≤ x) (hxy : x = y) :
    min x 1 = max 0 (min 1 y) := by
  subst hxy
  rw [min_comm]
  exact (max_eq_right (le_min (by norm_num) hx)).symm

/-- The §4.4 scoring formula exactly as the specification words it:
a type-based base, intensity/excitement bonuses, fusion-only bonuses, all
multiplied by the duration-shaping factor, plus the capped cross-signal
context bonus, with the result clamped to `[0, 1]`. -/
def spec_score (segment : Segment) (ts : List TransSeg) (aps : List AudioPeak)
    (ves : List VisionEvent) : ℚ :=
  let base : ℚ := if strStartsWith segment.type "speech" then 3/10
    else if strStartsWith segment.type "audio" then 1/4
    else if strStartsWith segment.type "vision" then 1/5
    else if segment.type = "multi_modal_fusion" then 2/5 else 0
  let fusion_part : ℚ := if segment.type = "multi_modal_fusion" then
      segment.fusion_score * (3/10) + (segment.source_types.length : ℚ) * (1/20)
    else 0
  let duration_factor : ℚ := if segment.duration < 5 then 3/10
    else if segment.duration < 10 then 7/10
    else if 45 < segment.duration then 4/5 else 1
  let context_bonus := calculate_context_bonus segment ts aps ves
  max 0 (min 1 ((base + segment.source_intensity * (1/10)
    + segment.source_excitement * (3/20) + fusion_part) * duration_factor
    + context_bonus))

set_option maxHeartbeats 2000000 in
/-- C3: the implemented score agrees with the specification's additive
formula (base by type, `+intensity×0.10`, `+excitement×0.15`, fusion-only
`+fusionScore×0.30` and `+0.05` per distinct source modality, duration
shaping ×0.3/×0.7/×0.8, plus the context bonus capped at 0.3, clamped to
`[0,1]`) whenever the source fields carry the nonnegative values the
generators produce. -/
theorem C3_score_is_spec_formula :
    ∀ (segment : Segment) (ts : List TransSeg) (aps : List AudioPeak)
      (ves : List VisionEvent),
      0 ≤ segment.source_intensity → 0 ≤ segment.source_excitement →
      0 ≤ segment.fusion_score →
      (∀ p ∈ aps, 0 ≤ p.intensity) →
      (∀ v ∈ ves, 0 ≤ v.intensity.getD (v.confidence.getD (1/2))) →
      score_highlight_segment segment ts aps ves = spec_score segment ts aps ves := by
  intro segment ts aps ves hi he hf ha hv
  have hc0 := calculate_context_bonus_nonneg segment ts aps ves ha hv
  have hlen : (0:ℚ) ≤ (segment.source_types.length : ℚ) := Nat.cast_nonneg _
  simp only [score_highlight_segment, spec_score]
  split_ifs <;> exact min_clamp_eq (by linarith) (by ring)

/-- A speech candidate used as concrete witness input for C3. -/
def c3Seg : Segment :=
  { startTime := 0, duration := 18, type := "speech_based", source_intensity := 1 }

/-- A transcription segment list used as concrete witness input for C3. -/
def c3TS : List TransSeg := [{ start := 5, stop := 8, text := "wow".toList }]

/-- Witness for C3 at a concrete candidate and signal context. -/
theorem C3_score_is_spec_formula_witness :
    score_highlight_segment c3Seg c3TS [] [] = spec_score c3Seg c3TS [] [] :=
  C3_score_is_spec_formula c3Seg c3TS [] []
    (by with_unfolding_all decide) (by with_unfolding_all decide)
    (by with_unfolding_all decide) (by simp) (by simp)

set_option maxHeartbeats 2000000 in
/-- C5: with every other field fixed, raising `source_intensity` or
`source_excitement` never lowers the score. -/
theorem C5_score_monotone :
    ∀ (segment : Segment) (ts : List TransSeg) (aps : List AudioPeak)
      (ves : List VisionEvent) (i₁ i₂ e₁ e₂ : ℚ), i₁ ≤ i₂ → e₁ ≤ e₂ →
      score_highlight_segment
          { segment with source_intensity := i₁, source_excitement := e₁ } ts aps ves
        ≤ score_highlight_segment
          { segment with source_intensity := i₂, source_excitement := e₂ } ts aps ves := by
  intro segment ts aps ves i₁ i₂ e₁ e₂ hi he
  simp only [score_highlight_segment, calculate_context_bonus]
  split_ifs <;> exact min_le_min (by linarith) le_rfl

/-- Witness for C5: raising intensity from 0 to 1 and excitement from 0 to 2
on a concrete candidate does not lower its score. -/
theorem C5_score_monotone_witness :
    score_highlight_segment
        { c3Seg with source_intensity := 0, source_excitement := 0 } c3TS [] []
      ≤ score_highlight_segment
        { c3Seg with source_intensity := 1, source_excitement := 2 } c3TS [] [] :=
  C5_score_monotone c3Seg c3TS [] [] 0 1 0 2
    (by with_unfolding_all decide) (by with_unfolding_all decide)

/-! ## Event clustering (C4) -/

theorem findClustersGo_spec (g : ℚ) :
    ∀ (rest : List Ev) (cur : List Ev) (last : Ev), cur ≠ [] →
      cur.getLast? = some last →
      cur.Chain' (fun a b => b.start - a.stop ≤ g) →
      ((findClustersGo g cur last rest).flatten = cur ++ rest
       ∧ findClustersGo g cur last rest ≠ []
       ∧ (∀ c ∈ (findClustersGo g cur last rest).head?, c.head? = cur.head?)
       ∧ (∀ c ∈ findClustersGo g cur last rest,
            c ≠ [] ∧ c.Chain' (fun a b => b.start - a.stop ≤ g))
       ∧ (findClustersGo g cur last rest).Chain'
           (fun c₁ c₂ => ∀ a ∈ c₁.getLast?, ∀ b ∈ c₂.head?, g < b.start - a.stop)) := by
  intro rest
  induction rest with
  | nil =>
    intro cur last hne hlast hch
    refine ⟨by simp [findClustersGo], by simp [findClustersGo], ?_, ?_, ?_⟩
    · intro c hc
      simp only [findClustersGo, List.head?_cons, Option.mem_def, Option.some_inj] at hc
      subst hc; rfl
    · intro c hc
      simp only [findClustersGo, List.mem_singleton] at hc
      subst hc; exact ⟨hne, hch⟩
    · exact List.chain'_singleton cur
  | cons e rs ih =>
    intro cur last hne hlast hch
    simp only [findClustersGo]
    split
    · next hgap =>
      have hne' : cur ++ [e] ≠ [] := by simp
      have hlast' : (cur ++ [e]).getLast? = some e := by
        rw [List.getLast?_concat]
      have hch' : (cur ++ [e]).Chain' (fun a b => b.start - a.stop ≤ g) := by
        rw [List.chain'_append]
        refine ⟨hch, List.chain'_singleton e, ?_⟩
        intro x hx y hy
        rw [hlast, Option.mem_def, Option.some_inj] at hx
        simp only [List.head?_cons, Option.mem_def, Option.some_inj] at hy
        subst hx; subst hy
        exact hgap
      obtain ⟨h1, h2, h3, h4, h5⟩ := ih (cur ++ [e]) e hne' hlast' hch'
      refine ⟨by rw [h1]; simp, h2, ?_, h4, h5⟩
      · intro c hc
        rw [h3 c hc]
        cases cur with
        | nil => exact absurd rfl hne
        | cons c0 cur' => rfl
    · next hgap =>
      obtain ⟨h1, h2, h3, h4, h5⟩ := ih [e] e (by simp) rfl (List.chain'_singleton e)
      refine ⟨?_, by simp, ?_, ?_, ?_⟩
      · simp only [List.flatten_cons, h1]
        simp
      · intro c hc
        simp only [List.head?_cons, Option.mem_def, Option.some_inj] at hc
        subst hc; rfl
      · intro c hc
        rcases List.mem_cons.mp hc with h | h
        · subst h; exact ⟨hne, hch⟩
        · exact h4 c h
      · rw [List.chain'_cons']
        refine ⟨?_, h5⟩
        intro y hy a ha b hb
        rw [hlast, Option.mem_def, Option.some_inj] at ha
        rw [h3 y hy] at hb
        simp only [List.head?_cons, Option.mem_def, Option.some_inj] at hb
        subst ha; subst hb
        exact lt_of_not_le hgap

/-- C4 (amended): `find_event_clusters` partitions the event sequence into
consecutive nonempty runs, growing a cluster exactly while the gap between
the next event's start and the end of the MOST RECENTLY APPENDED event
(`current_cluster[-1]`, not the cluster's maximum end) is at most the gap
bound, and breaking the cluster otherwise. -/
theorem C4_clusters_greedy_by_last_event :
    ∀ events : List Ev,
      (find_event_clusters events 10).flatten = events
      ∧ (∀ c ∈ find_event_clusters events 10,
           c ≠ [] ∧ c.Chain' (fun a b => b.start - a.stop ≤ 10))
      ∧ (find_event_clusters events 10).Chain'
          (fun c₁ c₂ => ∀ a ∈ c₁.getLast?, ∀ b ∈ c₂.head?, 10 < b.start - a.stop) := by
  intro events
  cases events with
  | nil => exact ⟨rfl, by simp [find_event_clusters], by simp [find_event_clusters]⟩
  | cons e rest =>
    obtain ⟨h1, _, _, h4, h5⟩ :=
      findClustersGo_spec 10 rest [e] e (by simp) rfl (List.chain'_singleton e)
    exact ⟨by simpa using h1, h4, h5⟩

/-- First clustering witness event: a long event covering `[0, 20]`. -/
def evA : Ev := { start := 0, stop := 20, data := .speech { start := 0, stop := 20, text := "a".toList } }

/-- Second clustering witness event: a short early event `[1, 2]`. -/
def evB : Ev := { start := 1, stop := 2, data := .speech { start := 1, stop := 2, text := "b".toList } }

/-- Third clustering witness event: `[15, 16]`, within 10s of the cluster's
maximum end (20) but more than 10s past the last event's end (2). -/
def evC : Ev := { start := 15, stop := 16, data := .speech { start := 15, stop := 16, text := "c".toList } }

/-- C4 counterexample: on the start-sorted events `[evA, evB, evC]` the code
closes the first cluster before `evC` even though `evC` starts within 10
seconds of the running cluster's maximum end (20): the code measures the gap
against the last appended event's end (2), which exceeds 10. -/
theorem C4_counterexample :
    find_event_clusters [evA, evB, evC] 10 = [[evA, evB], [evC]]
    ∧ evC.start - maxEnd [evA, evB] ≤ 10
    ∧ ¬ (evC.start - evB.stop ≤ 10) := by
  with_unfolding_all decide

/-- Witness for the amended C4 at the concrete event list. -/
theorem C4_clusters_greedy_by_last_event_witness :
    (find_event_clusters [evA, evB, evC] 10).flatten = [evA, evB, evC]
    ∧ ([evA, evB] ≠ [] ∧ List.Chain' (fun a b => b.start - a.stop ≤ 10) [evA, evB]) :=
  ⟨(C4_clusters_greedy_by_last_event [evA, evB, evC]).1,
   (C4_clusters_greedy_by_last_event [evA, evB, evC]).2.1 [evA, evB]
     (by with_unfolding_all decide)⟩

/-! ## Peak detection (C6, C7) -/

/-- The record `find_peaks_in_signal` builds at index `i`. -/
def peakAt (signal : List ℚ) (d : ℚ) (i : ℕ) : AudioPeak :=
  { start := max 0 ((i : ℚ) * (d / (signal.length : ℚ)) - 5),
    stop := min d ((i : ℚ) * (d / (signal.length : ℚ)) + 10),
    peak_time := some ((i : ℚ) * (d / (signal.length : ℚ))),
    intensity := signal.getD i 0 }

/-- The record `analyze_spectral_changes` builds at frame `i`. -/
def spectralChangeAt (mfcc : List (List ℚ)) (d : ℚ) (i : ℕ) : AudioPeak :=
  { start := max 0 ((i : ℚ) * (d / (mfcc.length : ℚ)) - 3),
    stop := min d ((i : ℚ) * (d / (mfcc.length : ℚ)) + 7),
    change_time := some ((i : ℚ) * (d / (mfcc.length : ℚ))),
    intensity := min (ratSqrt (sqDist (mfcc.getD i []) (mfcc.getD (i - 1) [])) / 5) 1 }

/-- The energy array of Scenario E: length 10, one clear local maximum above
threshold at index 5. -/
def energySig : List ℚ :=
  [1/10, 1/10, 1/10, 1/10, 1/10, 9/10, 1/10, 1/10, 1/10, 1/10]

/-- C6: an interior sample is reported as an audio peak exactly when it is
strictly greater than both neighbours and exceeds the 0.7 threshold, with
index converted to time by `duration / len(signal)`; every reported peak
carries the window `[peakTime−5, peakTime+10]` clamped to `[0, duration]`;
and Scenario E (length-10 energy array over a 30s chunk, single qualifying
local maximum at index 5) yields exactly one energy peak at `peakTime = 15`. -/
theorem C6_audio_peak_detection :
    (∀ (signal : List ℚ) (d : ℚ), 0 < d → ∀ i : ℕ, 1 ≤ i → i + 1 < signal.length →
      ((∃ p ∈ find_peaks_in_signal signal d (7/10),
          p.peak_time = some ((i : ℚ) * (d / (signal.length : ℚ))))
        ↔ (signal.getD (i - 1) 0 < signal.getD i 0
            ∧ signal.getD (i + 1) 0 < signal.getD i 0 ∧ 7/10 < signal.getD i 0)))
    ∧ (∀ (signal : List ℚ) (d threshold : ℚ),
        ∀ p ∈ find_peaks_in_signal signal d threshold,
        ∃ i : ℕ, 1 ≤ i ∧ i + 1 < signal.length
          ∧ signal.getD (i - 1) 0 < signal.getD i 0
          ∧ signal.getD (i + 1) 0 < signal.getD i 0
          ∧ threshold < signal.getD i 0 ∧ p = peakAt signal d i)
    ∧ analyze_audio_peaks (some { energy := energySig }) 30
        = [{ peakAt energySig 30 5 with type := "energy" }] := by
  refine ⟨?_, ?_, by with_unfolding_all decide⟩
  · intro signal d hd i h1 h2
    have hlen : ¬ signal.length < 3 := by omega
    constructor
    · rintro ⟨p, hp, hpt⟩
      simp only [find_peaks_in_signal, if_neg hlen] at hp
      rw [List.mem_filterMap] at hp
      obtain ⟨j, hjr, hsome⟩ := hp
      split_ifs at hsome with hc1 hc2
      · obtain rfl := Option.some_inj.mp hsome
        simp only [Option.some_inj] at hpt
        have hlp : 0 < signal.length := by omega
        have hstep : (0:ℚ) < d / (signal.length : ℚ) :=
          div_pos hd (by exact_mod_cast hlp)
        have hji : (j:ℚ) = (i:ℚ) := mul_right_cancel₀ (ne_of_gt hstep) hpt
        have hj : j = i := Nat.cast_injective hji
        subst hj
        exact hc2
    · intro hcond
      refine ⟨peakAt signal d i, ?_, rfl⟩
      simp only [find_peaks_in_signal, if_neg hlen]
      rw [List.mem_filterMap]
      refine ⟨i, List.mem_range.mpr (by omega), ?_⟩
      rw [if_pos ⟨h1, h2⟩, if_pos hcond]
      rfl
  · intro signal d threshold p hp
    simp only [find_peaks_in_signal] at hp
    split at hp
    · exact absurd hp (List.not_mem_nil p)
    · rw [List.mem_filterMap] at hp
      obtain ⟨j, hjr, hsome⟩ := hp
      split_ifs at hsome with hc1 hc2
      · obtain rfl := Option.some_inj.mp hsome
        exact ⟨j, hc1.1, hc1.2, hc2.1, hc2.2.1, hc2.2.2, rfl⟩

/-- Witness for C6: Scenario E's array does yield the peak at time 15. -/
theorem C6_audio_peak_detection_witness :
    ∃ p ∈ find_peaks_in_signal energySig 30 (7/10),
      p.peak_time = some (((5 : ℕ) : ℚ) * ((30 : ℚ) / (energySig.length : ℚ))) :=
  (C6_audio_peak_detection.1 energySig 30 (by norm_num) 5
    (by norm_num) (by with_unfolding_all decide)).mpr (by with_unfolding_all decide)

/-- The two-frame MFCC array used to refute C7's window claim. -/
def mfccEx : List (List ℚ) := [[0], [6]]

/-- C7 counterexample: the spectral change detected in `mfccEx` over a 30s
chunk sits at `change_time = 15` but spans `[12, 22]`, not the claimed
`[peakTime−5, peakTime+10] = [10, 25]`. -/
theorem C7_counterexample :
    analyze_spectral_changes mfccEx 30 = [spectralChangeAt mfccEx 30 1]
    ∧ (spectralChangeAt mfccEx 30 1).change_time = some 15
    ∧ (spectralChangeAt mfccEx 30 1).start = 12
    ∧ (spectralChangeAt mfccEx 30 1).stop = 22
    ∧ ((12 : ℚ) ≠ 15 - 5 ∧ (22 : ℚ) ≠ 15 + 10) := by
  with_unfolding_all decide

/-- C7 (amended): a spectral change is emitted at frame `i ≥ 1` exactly when
the Euclidean distance between frames `i` and `i−1` exceeds 2 (no
neighbour-maximum test is applied), its intensity is the distance divided by
5 and clamped to `[0,1]`, and its window is `[changeTime−3, changeTime+7]`
clamped to `[0, duration]`. -/
theorem C7_spectral_change_characterization :
    (∀ (mfcc : List (List ℚ)) (d : ℚ), 0 < d → ∀ i : ℕ, 1 ≤ i → i < mfcc.length →
      ((∃ p ∈ analyze_spectral_changes mfcc d,
          p.change_time = some ((i : ℚ) * (d / (mfcc.length : ℚ))))
        ↔ 4 < sqDist (mfcc.getD i []) (mfcc.getD (i - 1) [])))
    ∧ (∀ (mfcc : List (List ℚ)) (d : ℚ), ∀ p ∈ analyze_spectral_changes mfcc d,
        ∃ i : ℕ, 1 ≤ i ∧ i < mfcc.length
          ∧ 4 < sqDist (mfcc.getD i []) (mfcc.getD (i - 1) [])
          ∧ p = spectralChangeAt mfcc d i) := by
  constructor
  · intro mfcc d hd i h1 h2
    have hlen : ¬ mfcc.length < 2 := by omega
    constructor
    · rintro ⟨p, hp, hpt⟩
      simp only [analyze_spectral_changes, if_neg hlen] at hp
      rw [List.mem_filterMap] at hp
      obtain ⟨j, hjr, hsome⟩ := hp
      split_ifs at hsome with hc1 hc2
      · obtain rfl := Option.some_inj.mp hsome
        simp only [Option.some_inj] at hpt
        have hlp : 0 < mfcc.length := by omega
        have hstep : (0:ℚ) < d / (mfcc.length : ℚ) :=
          div_pos hd (by exact_mod_cast hlp)
        have hji : (j:ℚ) = (i:ℚ) := mul_right_cancel₀ (ne_of_gt hstep) hpt
        have hj : j = i := Nat.cast_injective hji
        subst hj
        exact hc2
    · intro hcond
      refine ⟨spectralChangeAt mfcc d i, ?_, rfl⟩
      simp only [analyze_spectral_changes, if_neg hlen]
      rw [List.mem_filterMap]
      refine ⟨i, List.mem_range.mpr (by omega), ?_⟩
      rw [if_pos h1, if_pos hcond]
      rfl
  · intro mfcc d p hp
    simp only [analyze_spectral_changes] at hp
    split at hp
    · exact absurd hp (List.not_mem_nil p)
    · next hlen =>
      rw [List.mem_filterMap] at hp
      obtain ⟨j, hjr, hsome⟩ := hp
      rw [List.mem_range] at hjr
      split_ifs at hsome with hc1 hc2
      · obtain rfl := Option.some_inj.mp hsome
        exact ⟨j, hc1, hjr, hc2, rfl⟩

/-- Witness for the amended C7 at the concrete `mfccEx` input. -/
theorem C7_spectral_change_characterization_witness :
    ∃ p ∈ analyze_spectral_changes mfccEx 30,
      p.change_time = some (((1 : ℕ) : ℚ) * ((30 : ℚ) / (mfccEx.length : ℚ))) :=
  (C7_spectral_change_characterization.1 mfccEx 30 (by norm_num) 1
    (by norm_num) (by with_unfolding_all decide)).mpr (by with_unfolding_all decide)

/-! ## Fusion emission (C8) -/

theorem length_filterMap_eq_length_filter (f : α → Option β) (l : List α) :
    (l.filterMap f).length = (l.filter (fun a => (f a).isSome)).length := by
  induction l with
  | nil => rfl
  | cons x xs ih =>
    cases hx : f x <;> simp [List.filterMap_cons, hx, List.filter_cons, ih]

/-- The candidate record the fusion generator emits for a qualifying
cluster. -/
def fusionSegOf (cluster : List Ev) (d : ℚ) : Segment :=
  { startTime := max 0 (minStart cluster - 5),
    duration := min d (maxEnd cluster + 8) - max 0 (minStart cluster - 5),
    type := "multi_modal_fusion", source_events := cluster.length,
    source_types := (cluster.map Ev.type).dedup,
    fusion_score := calculate_fusion_score cluster }

/-- C8: a cluster yields a fusion candidate exactly when it has at least two
events, the expanded window `[min start − 5, max end + 8]` clamped to
`[0, duration]` is at least 10 seconds long, and its fusion score exceeds
0.3; qualifying clusters emit exactly the expanded-window candidate, and the
generator emits one candidate per qualifying cluster. -/
theorem C8_fusion_cluster_emission :
    (∀ (cluster : List Ev) (d : ℚ),
      (fusion_segment_of_cluster cluster d).isSome = true ↔
        (2 ≤ cluster.length
         ∧ 10 ≤ min d (maxEnd cluster + 8) - max 0 (minStart cluster - 5)
         ∧ 3/10 < calculate_fusion_score cluster))
    ∧ (∀ (cluster : List Ev) (d : ℚ), 2 ≤ cluster.length →
        10 ≤ min d (maxEnd cluster + 8) - max 0 (minStart cluster - 5) →
        3/10 < calculate_fusion_score cluster →
        fusion_segment_of_cluster cluster d = some (fusionSegOf cluster d))
    ∧ (∀ (ts : List TransSeg) (aps : List AudioPeak) (ves : List VisionEvent) (d : ℚ),
        (create_fusion_segments ts aps ves d).length
          = ((find_event_clusters
                (sortBy (fun a b => decide (a.start < b.start)) (eventsOf ts aps ves)) 10).filter
              (fun c => (fusion_segment_of_cluster c d).isSome)).length) := by
  refine ⟨?_, ?_, ?_⟩
  · intro cluster d
    simp only [fusion_segment_of_cluster]
    split_ifs with h1 h2
    · simp only [Option.isSome_some, true_iff]
      exact ⟨h1, h2.1, h2.2⟩
    · simp only [Option.isSome_none, Bool.false_eq_true, false_iff]
      intro hcon
      exact h2 ⟨hcon.2.1, hcon.2.2⟩
    · simp only [Option.isSome_none, Bool.false_eq_true, false_iff]
      intro hcon
      exact h1 hcon.1
  · intro cluster d h1 h2 h3
    have hcond := And.intro h2 h3
    simp only [fusion_segment_of_cluster]
    rw [if_pos h1, if_pos hcond]
    rfl
  · intro ts aps ves d
    simp only [create_fusion_segments]
    exact length_filterMap_eq_length_filter _ _

/-- Two overlapping events (one speech with a quality keyword, one audio
peak) forming a qualifying fusion cluster for the C8 witness. -/
def fuseEvA : Ev :=
  { start := 2, stop := 6, data := .speech { start := 2, stop := 6, text := "that was amazing".toList } }

/-- The audio event of the C8 witness cluster. -/
def fuseEvB : Ev :=
  { start := 4, stop := 9, data := .audio { start := 4, stop := 9, peak_time := some 5, intensity := 9/10 } }

/-- Witness for C8: the concrete two-event cluster qualifies and emits the
expanded-window candidate. -/
theorem C8_fusion_cluster_emission_witness :
    fusion_segment_of_cluster [fuseEvA, fuseEvB] 30
      = some (fusionSegOf [fuseEvA, fuseEvB] 30) :=
  C8_fusion_cluster_emission.2.1 [fuseEvA, fuseEvB] 30
    (by with_unfolding_all decide) (by with_unfolding_all decide)
    (by with_unfolding_all decide)

/-! ## Chunk-level fallback score (C9) -/

/-- A payload-free chunk of duration 2 (shorter than the 3s duration-shaping
bound). -/
def noData2 : ChunkInput :=
  { chunkId := "c", chunkData := { duration := 2, startTime := 0 } }

/-- A payload-free chunk of duration 10. -/
def noData10 : ChunkInput :=
  { chunkId := "c", chunkData := { duration := 10, startTime := 0 } }

/-- C9 counterexample: a chunk with no payloads and duration 2 is scored
0.2 × 0.5 = 0.1, not the claimed fixed baseline 0.2 (the baseline is
duration-shaped afterwards). -/
theorem C9_counterexample :
    calculate_chunk_score noData2 = some (1/10) ∧ (1/10 : ℚ) ≠ 1/5 := by
  with_unfolding_all decide

/-- C9 (amended): a chunk with no transcription, vision or audio payload is
given the baseline score 0.2 before duration shaping — so its chunk score is
exactly 0.2 whenever `3 ≤ duration ≤ 30` — and the highlight pipeline emits
zero highlights for it (its score never reaches the 0.3 threshold because no
candidate segments exist at all). -/
theorem C9_no_data_chunk :
    ∀ chunk : ChunkInput, chunk.chunkData.transcription = none →
      chunk.chunkData.vision = none → chunk.chunkData.audioFeatures = none →
      ((3 ≤ chunk.chunkData.duration → chunk.chunkData.duration ≤ 30 →
          calculate_chunk_score chunk = some (1/5))
       ∧ find_highlight_segments_in_chunk chunk = []
       ∧ analyze_and_score_chunks [chunk] = []) := by
  intro chunk ht hv ha
  obtain ⟨id, td⟩ := chunk
  obtain ⟨t, v, a, d, st⟩ := td
  simp only at ht hv ha
  subst ht; subst hv; subst ha
  refine ⟨?_, rfl, rfl⟩
  intro h3 h30
  simp only [calculate_chunk_score]
  norm_num
  rw [if_neg (not_lt.mpr h3), if_neg (not_lt.mpr h30)]
  norm_num [min_eq_left]

/-- Witness for the amended C9 at the concrete duration-10 chunk. -/
theorem C9_no_data_chunk_witness :
    calculate_chunk_score noData10 = some (1/5)
    ∧ analyze_and_score_chunks [noData10] = [] :=
  ⟨(C9_no_data_chunk noData10 rfl rfl rfl).1
      (by with_unfolding_all decide) (by with_unfolding_all decide),
   (C9_no_data_chunk noData10 rfl rfl rfl).2.2⟩

end ClipForge
